import Mathlib

/-!
Verification of the token-refresh-aware API client of the rw-demo frontend.

The development shallowly embeds the two core modules of the repository:

* `AuthService` (src/services/auth): the credential store owning the
  access/refresh token pair, persisted under the localStorage keys
  `access_token` / `refresh_token`.
* `ApiService` (src/services/api): the request pipeline wrapping `fetch`,
  with 401-triggered refresh-and-retry, error normalization, the
  degraded-list fallback for endpoints of the three resource families,
  and cache-invalidation hooks on mutations.

Network effects are made explicit: each pipeline run takes a `World`
recording what the network would answer to the (at most) two fetches and
the single possible refresh call of one logical request.  JavaScript
truthiness on strings (`""` is falsy) and the `x || d` default idiom are
modelled by `truthy` and `jsOr`.  Timestamps (`Date.now()`,
`Date.toISOString()`) are abstracted as natural numbers.

The cache module (`src/services/cache`) and the `useApi` hook
(`src/hooks/useApi`) are imported by the sources but their files are not
part of the repository snapshot; the definitions `invalidateFamily`,
`writeCache` and `cacheRead` below are modelled from the specification
(sections 3, 4.2 steps 1 and 6) and are marked as such.
-/

namespace RwDemo

/-- JavaScript truthiness of a nullable string: absent and `""` are falsy. -/
def truthy : Option String → Bool
  | none => false
  | some s => !(s == "")

/-- The JavaScript `x || d` defaulting idiom on a nullable string. -/
def jsOr (o : Option String) (d : String) : String :=
  match o with
  | some s => if s == "" then d else s
  | none => d

/-- Shape of `/v1/auth/login` and `/v1/auth/refresh` success bodies. -/
structure TokenResponse where
  access_token : String
  refresh_token : String
  token_type : String
deriving DecidableEq

/-- State of the `AuthService` singleton: the in-memory token fields plus
the two persisted localStorage slots (`access_token`, `refresh_token`). -/
structure AuthState where
  accessToken : Option String
  refreshToken : Option String
  storedAccess : Option String
  storedRefresh : Option String
deriving DecidableEq

/-- Header record produced by `AuthService.getAuthHeaders`:
a content-type entry that is always present, and an Authorization entry
that is present iff an access token is held (in the truthiness sense). -/
structure Headers where
  contentType : String
  authorization : Option String
deriving DecidableEq

/-- Outcome of one network interaction of the auth endpoints:
the fetch promise rejects, the response is non-ok with an optional JSON
`detail` field, or the response is ok and parses as a `TokenResponse`. -/
inductive NetResult where
  | netErr (msg : String)
  | httpErr (detail : Option String)
  | ok (tokens : TokenResponse)
deriving DecidableEq

namespace AuthService

/-- The constructor body: `loadTokensFromStorage` copies the two
localStorage slots into the in-memory fields (cold-start hydration). -/
def loadTokensFromStorage (storedAccess storedRefresh : Option String) : AuthState :=
  ⟨storedAccess, storedRefresh, storedAccess, storedRefresh⟩

/-- `saveTokensToStorage`: set both in-memory fields and both storage slots. -/
def saveTokensToStorage (t : TokenResponse) (_st : AuthState) : AuthState :=
  ⟨some t.access_token, some t.refresh_token, some t.access_token, some t.refresh_token⟩

/-- `clearTokensFromStorage`: null both in-memory fields and remove both slots. -/
def clearTokensFromStorage (_st : AuthState) : AuthState :=
  ⟨none, none, none, none⟩

/-- `isAuthenticated` is `!!this.accessToken`. -/
def isAuthenticated (st : AuthState) : Bool :=
  truthy st.accessToken

/-- `getAuthHeaders`: a JSON content type always, a bearer Authorization
entry iff the access token is truthy. -/
def getAuthHeaders (st : AuthState) : Headers :=
  if truthy st.accessToken then
    ⟨"application/json", some ("Bearer " ++ st.accessToken.getD "")⟩
  else
    ⟨"application/json", none⟩

/-- `login`: on a non-ok response, fail with the body detail (or the
generic message) leaving the state unchanged; on success, persist the
returned token pair. -/
def login (st : AuthState) (w : NetResult) : Except String TokenResponse × AuthState :=
  match w with
  | .ok t => (.ok t, saveTokensToStorage t st)
  | .httpErr d => (.error (jsOr d "Login failed"), st)
  | .netErr m => (.error m, st)

/-- `refreshAccessToken`: guard `if (!this.refreshToken) throw` sits before
the try block, so the no-token failure leaves the state untouched; inside
the try block any failure (non-ok response or rejected fetch) clears the
stored tokens before rethrowing, and success persists the new pair. -/
def refreshAccessToken (st : AuthState) (w : NetResult) :
    Except String TokenResponse × AuthState :=
  if !(truthy st.refreshToken) then
    (.error "No refresh token available", st)
  else
    match w with
    | .ok t => (.ok t, saveTokensToStorage t st)
    | .httpErr d => (.error (jsOr d "Token refresh failed"), clearTokensFromStorage st)
    | .netErr m => (.error m, clearTokensFromStorage st)

/-- `logout` clears tokens unconditionally. -/
def logout (st : AuthState) : AuthState :=
  clearTokensFromStorage st

end AuthService

/-- Body of an HTTP response: JSON that parses (with optional `detail`
field and an abstract payload tag), or a body on which `json()` rejects. -/
inductive RespBody where
  | json (detail : Option String) (tag : String)
  | invalid
deriving DecidableEq

/-- Outcome of one `fetch` of the request pipeline. -/
inductive FetchOutcome where
  | netErr (msg : String)
  | resp (status : Nat) (body : RespBody)
deriving DecidableEq

/-- What the network would answer during one logical request: the first
fetch, the refresh call (if one happens), and the retry fetch (if issued). -/
structure World where
  first : FetchOutcome
  refreshResult : NetResult
  second : FetchOutcome
deriving DecidableEq

/-- Value produced by a successful pipeline run: a parsed JSON body, the
empty value a 204 yields, or the degraded empty-list fallback object
`\x7brows: [], total: 0, offset: 0, error\x7d`. -/
inductive ReqValue where
  | json (detail : Option String) (tag : String)
  | empty
  | fallbackList (rows : List String) (total : Nat) (offset : Nat) (error : String)
deriving DecidableEq

/-- Effect trace of a run: the Authorization value each issued fetch
carried, how many refresh calls happened, and simulated delays. -/
structure Trace where
  fetches : List (Option String)
  refreshCalls : Nat
  delaysMs : List Nat
deriving DecidableEq

deriving instance DecidableEq for Except

/-- Result of `ApiService.request`: the value-or-error, the auth state
afterwards, and the effect trace. -/
structure ReqResult where
  res : Except String ReqValue
  state : AuthState
  trace : Trace
deriving DecidableEq

/-- `response.ok` of the Fetch API: status in [200, 300). -/
def isOkStatus (s : Nat) : Bool :=
  (200 ≤ s) && (s ≤ 299)

/-- The `detail` field the error path reads via
`response.json().catch(() => (\x7b\x7d))`. -/
def bodyDetail : RespBody → Option String
  | .json d _ => d
  | .invalid => none

/-- Prefix test on character lists (`hasPre pat l` iff `pat` begins `l`). -/
def hasPre : List Char → List Char → Bool
  | [], _ => true
  | _ :: _, [] => false
  | p :: ps, c :: cs => p == c && hasPre ps cs

/-- Substring test on character lists (`hasSub pat l` iff `pat` occurs in `l`). -/
def hasSub (pat : List Char) : List Char → Bool
  | [] => hasPre pat []
  | c :: cs => hasPre pat (c :: cs) || hasSub pat cs

/-- JavaScript `s.includes(pat)`. -/
def strIncludes (s pat : String) : Bool :=
  hasSub pat.toList s.toList

namespace ApiService

/-- Header merge `\x7b...authService.getAuthHeaders(), ...options.headers\x7d`
restricted to the Authorization entry: a caller-supplied entry (present
even when empty) overrides the one derived from the credential store. -/
def mergedAuth (st : AuthState) (callerAuth : Option String) : Option String :=
  match callerAuth with
  | some v => some v
  | none => (AuthService.getAuthHeaders st).authorization

/-- Response handling of `ApiService.request` after the 401 stage:
non-ok fails with the body detail or a generic message naming the status,
204 yields the empty value, and an ok body is parsed as JSON. -/
def handleResponse (status : Nat) (body : RespBody) : Except String ReqValue :=
  if isOkStatus status = false then
    .error (jsOr (bodyDetail body) ("HTTP error! status: " ++ toString status))
  else if status == 204 then
    .ok .empty
  else
    match body with
    | .json d tag => .ok (.json d tag)
    | .invalid => .error "Unexpected end of JSON input"

/-- The try-block of `ApiService.request`: dispatch with merged headers;
if the first response is 401 while a token is held, refresh once and
either retry once with re-merged headers or force logout and raise the
session-expired error; then normalize the (possibly retried) response. -/
def requestCore (callerAuth : Option String) (st : AuthState) (w : World) : ReqResult :=
  match w.first with
  | .netErr m => ⟨.error m, st, ⟨[mergedAuth st callerAuth], 0, []⟩⟩
  | .resp status body =>
    if (status == 401) && AuthService.isAuthenticated st then
      match AuthService.refreshAccessToken st w.refreshResult with
      | (.ok _, st1) =>
        match w.second with
        | .netErr m =>
          ⟨.error m, st1, ⟨[mergedAuth st callerAuth, mergedAuth st1 callerAuth], 1, []⟩⟩
        | .resp s2 b2 =>
          ⟨handleResponse s2 b2, st1,
            ⟨[mergedAuth st callerAuth, mergedAuth st1 callerAuth], 1, []⟩⟩
      | (.error _, st1) =>
        ⟨.error "Session expired. Please login again.", AuthService.logout st1,
          ⟨[mergedAuth st callerAuth], 1, []⟩⟩
    else
      ⟨handleResponse status body, st, ⟨[mergedAuth st callerAuth], 0, []⟩⟩

/-- The catch-clause predicate of `ApiService.request`:
`endpoint.includes('products') || endpoint.includes('memorabilia') ||
endpoint.includes('merchandise')`. -/
def isFamilyEndpoint (endpoint : String) : Bool :=
  strIncludes endpoint "products" || strIncludes endpoint "memorabilia" ||
    strIncludes endpoint "merchandise"

/-- `ApiService.request`: run the try-block; a failure on an endpoint of
one of the three resource families is converted into the successful
degraded empty-list response carrying the error message, while failures
on other endpoints are rethrown. -/
def request (endpoint : String) (callerAuth : Option String) (st : AuthState)
    (w : World) : ReqResult :=
  match requestCore callerAuth st w with
  | ⟨.ok v, st1, tr⟩ => ⟨.ok v, st1, tr⟩
  | ⟨.error m, st1, tr⟩ =>
    if isFamilyEndpoint endpoint then
      ⟨.ok (.fallbackList [] 0 0 m), st1, tr⟩
    else
      ⟨.error m, st1, tr⟩

/-- `ApiService.getProduct`: one request to `/v1/products/` + idOrSlug;
its catch clause only logs and rethrows, so it equals the plain request. -/
def getProduct (idOrSlug : String) (st : AuthState) (w : World) : ReqResult :=
  request ("/v1/products/" ++ idOrSlug) none st w

/-- `ApiService.uploadFile`: posts to `/v1/uploads/` with a caller-supplied
Authorization header whose value is captured from
`authService.getAuthHeaders()['Authorization'] || ''` before dispatch. -/
def uploadFile (st : AuthState) (w : World) : ReqResult :=
  request "/v1/uploads/"
    (some (jsOr (AuthService.getAuthHeaders st).authorization "")) st w

end ApiService

/-- Resource families sharing one cache-invalidation scope. -/
inductive Family where
  | products
  | memorabilia
  | merchandises
deriving DecidableEq

/-- Cache entry of the keyed response cache: the family the entry belongs
to, the cached value, its fetch timestamp and its TTL. -/
structure CacheEntry where
  family : Family
  value : ReqValue
  fetchedAt : Nat
  ttl : Nat
deriving DecidableEq

/-- The cache table, keyed by caller-supplied cache keys. -/
abbrev Cache := String → Option CacheEntry

/-- Modelled from the spec: the cache module `src/services/cache`
(imported by the API service for `invalidateProductCache`,
`invalidateMemorabiliaCache`, `invalidateMerchandiseCache`) is not part
of the repository snapshot.  Per section 4.2 step 6, invalidation is
family-wide: every entry belonging to the family is evicted. -/
def invalidateFamily (f : Family) (c : Cache) : Cache :=
  fun k =>
    match c k with
    | some e => if e.family = f then none else some e
    | none => none

/-- The `invalidateProductCache` hook of the missing cache module. -/
def invalidateProductCache : Cache → Cache :=
  invalidateFamily .products

/-- The `invalidateMemorabiliaCache` hook of the missing cache module. -/
def invalidateMemorabiliaCache : Cache → Cache :=
  invalidateFamily .memorabilia

/-- The `invalidateMerchandiseCache` hook of the missing cache module. -/
def invalidateMerchandiseCache : Cache → Cache :=
  invalidateFamily .merchandises

/-- Freshness of an entry at time `now`: `now - fetchedAt < ttl`. -/
def isFresh (now : Nat) (e : CacheEntry) : Bool :=
  now - e.fetchedAt < e.ttl

/-- Modelled from the spec: the cache-write step of the `useApi` hook
(`src/hooks/useApi` is not part of the repository snapshot) — on a
successful fetch the entry for the key is written with the fetched
value and the current time (section 4.2 step 6). -/
def writeCache (key : String) (f : Family) (ttl : Nat) (v : ReqValue) (now : Nat)
    (c : Cache) : Cache :=
  fun k => if k == key then some ⟨f, v, now, ttl⟩ else c k

/-- Result of a cache-eligible read: the served value, whether a network
call was made, and the cache afterwards. -/
structure CacheReadResult where
  value : ReqValue
  networkCalled : Bool
  cache : Cache

/-- Modelled from the spec: the cache-check step of the `useApi` hook
(`src/hooks/useApi` is not part of the repository snapshot) — a fresh
entry for the key is returned immediately without a network call,
otherwise the value is fetched and the entry (re)written
(section 4.2 step 1).  `fetched` is the value the network would return. -/
def cacheRead (key : String) (now : Nat) (f : Family) (ttl : Nat) (fetched : ReqValue)
    (c : Cache) : CacheReadResult :=
  match c key with
  | some e =>
    if isFresh now e then ⟨e.value, false, c⟩
    else ⟨fetched, true, writeCache key f ttl fetched now c⟩
  | none => ⟨fetched, true, writeCache key f ttl fetched now c⟩

/-- Result of a mutation method: the request result plus the cache after
the invalidation hook ran. -/
structure MutResult where
  res : Except String ReqValue
  state : AuthState
  cache : Cache
  trace : Trace

/-- A linked item as embedded in detail payloads. -/
structure LinkedItem where
  id : String
  title : String
  subtitle : Option String := none
deriving DecidableEq

/-- Rental period literals of the product model. -/
inductive RentalPeriod where
  | hourly
  | daily
  | weekly
  | monthly
  | yearly
deriving DecidableEq

/-- The `Product` record of the API service. -/
structure Product where
  id : String
  title : String
  subtitle : Option String := none
  description : Option String := none
  product_types : List String := []
  movies : List String := []
  genres : List String := []
  keywords : List String := []
  available_rental_periods : List RentalPeriod := []
  images : List String := []
  background_image_url : Option String := none
  is_background_image_activated : Bool := false
  is_trending_model : Bool := false
  sale_price : Option String := none
  retail_price : Option String := none
  rental_price_hourly : Option String := none
  rental_price_daily : Option String := none
  rental_price_weekly : Option String := none
  rental_price_monthly : Option String := none
  rental_price_yearly : Option String := none
  slug : String := ""
  video_url : Option String := none
  created_at : Option String := none
  updated_at : Option String := none
  products : Option (List LinkedItem) := none
deriving DecidableEq

/-- The `ProductCreate` payload (prices abstracted as strings). -/
structure ProductCreate where
  title : String
  subtitle : Option String := none
  description : Option String := none
  product_types : Option (List String) := none
  movies : Option (List String) := none
  genres : Option (List String) := none
  keywords : Option (List String) := none
  available_rental_periods : Option (List RentalPeriod) := none
  images : Option (List String) := none
  background_image_url : Option String := none
  is_background_image_activated : Option Bool := none
  is_trending_model : Option Bool := none
  sale_price : Option String := none
  retail_price : Option String := none
  rental_price_hourly : Option String := none
  rental_price_daily : Option String := none
  rental_price_weekly : Option String := none
  rental_price_monthly : Option String := none
  rental_price_yearly : Option String := none
  slug : Option String := none
  video_url : Option String := none
  memorabilia_ids : Option (List String) := none
  merchandise_ids : Option (List String) := none
  product_ids : Option (List String) := none
deriving DecidableEq

/-- Result of `ApiService.createProduct` (the mocked demo path): the
product value, the untouched auth state and cache, and the effect trace. -/
structure CreateProductResult where
  product : Product
  state : AuthState
  cache : Cache
  trace : Trace

/-- The regex replacement `title.replace(/\s+/g, '-')`: every maximal run
of whitespace collapses to a single hyphen.  The flag records whether the
previous character was whitespace. -/
def replaceWsRuns : Bool → List Char → List Char
  | _, [] => []
  | prevWs, c :: rest =>
    if c.isWhitespace then
      (if prevWs then [] else ['-']) ++ replaceWsRuns true rest
    else
      c :: replaceWsRuns false rest

/-- The default slug `data.title.toLowerCase().replace(/\s+/g, '-')`,
with lowercasing applied character by character. -/
def defaultSlug (title : String) : String :=
  ⟨replaceWsRuns false (title.toList.map Char.toLower)⟩

/-- `new Date(ms).toISOString()` abstracted over a millisecond clock. -/
def isoString (nowMs : Nat) : String :=
  toString nowMs

namespace ApiService

/-- `ApiService.createProduct`: the demo build skips the API call entirely
(the real POST and the `invalidateProductCache()` call are commented out)
and, after a simulated 500 ms delay, resolves with a mock product built
from the payload; it touches neither the network, nor the credential
store, nor the cache, and its catch branch is unreachable. -/
def createProduct (data : ProductCreate) (now : Nat) (st : AuthState) (c : Cache) :
    CreateProductResult :=
  { product :=
      { id := "mock-" ++ toString now
        title := data.title
        subtitle := some (jsOr data.subtitle "")
        description := some (jsOr data.description "")
        product_types := data.product_types.getD []
        movies := data.movies.getD []
        genres := data.genres.getD []
        keywords := data.keywords.getD []
        available_rental_periods := data.available_rental_periods.getD []
        images := data.images.getD []
        is_background_image_activated := data.is_background_image_activated.getD false
        is_trending_model := data.is_trending_model.getD false
        slug := jsOr data.slug (defaultSlug data.title)
        created_at := some (isoString now)
        updated_at := some (isoString now) }
    state := st
    cache := c
    trace := { fetches := [], refreshCalls := 0, delaysMs := [500] } }

/-- The shared shape of the real mutation methods: await the request
(a failure propagates before the hook runs), then synchronously run the
family-wide invalidation hook and return the result. -/
def awaitThenInvalidate (r : ReqResult) (f : Family) (c : Cache) : MutResult :=
  match r.res with
  | .ok v => ⟨.ok v, r.state, invalidateFamily f c, r.trace⟩
  | .error m => ⟨.error m, r.state, c, r.trace⟩

/-- `ApiService.updateProduct`: PATCH `/v1/products/` + id, then
`invalidateProductCache()`. -/
def updateProduct (id : String) (st : AuthState) (c : Cache) (w : World) : MutResult :=
  awaitThenInvalidate (request ("/v1/products/" ++ id) none st w) .products c

/-- `ApiService.deleteProduct`: DELETE `/v1/products/` + id, then
`invalidateProductCache()`. -/
def deleteProduct (id : String) (st : AuthState) (c : Cache) (w : World) : MutResult :=
  awaitThenInvalidate (request ("/v1/products/" ++ id) none st w) .products c

/-- `ApiService.createMemorabilia`: POST `/v1/memorabilia/`, then
`invalidateMemorabiliaCache()`. -/
def createMemorabilia (st : AuthState) (c : Cache) (w : World) : MutResult :=
  awaitThenInvalidate (request "/v1/memorabilia/" none st w) .memorabilia c

/-- `ApiService.updateMemorabilia`: PATCH `/v1/memorabilia/` + id, then
`invalidateMemorabiliaCache()`. -/
def updateMemorabilia (id : String) (st : AuthState) (c : Cache) (w : World) : MutResult :=
  awaitThenInvalidate (request ("/v1/memorabilia/" ++ id) none st w) .memorabilia c

/-- `ApiService.deleteMemorabilia`: DELETE `/v1/memorabilia/` + id, then
`invalidateMemorabiliaCache()`. -/
def deleteMemorabilia (id : String) (st : AuthState) (c : Cache) (w : World) : MutResult :=
  awaitThenInvalidate (request ("/v1/memorabilia/" ++ id) none st w) .memorabilia c

/-- `ApiService.createMerchandise`: POST `/v1/merchandises/`, then
`invalidateMerchandiseCache()`. -/
def createMerchandise (st : AuthState) (c : Cache) (w : World) : MutResult :=
  awaitThenInvalidate (request "/v1/merchandises/" none st w) .merchandises c

/-- `ApiService.updateMerchandise`: PATCH `/v1/merchandises/` + id, then
`invalidateMerchandiseCache()`. -/
def updateMerchandise (id : String) (st : AuthState) (c : Cache) (w : World) : MutResult :=
  awaitThenInvalidate (request ("/v1/merchandises/" ++ id) none st w) .merchandises c

/-- `ApiService.deleteMerchandise`: DELETE `/v1/merchandises/` + id, then
`invalidateMerchandiseCache()`. -/
def deleteMerchandise (id : String) (st : AuthState) (c : Cache) (w : World) : MutResult :=
  awaitThenInvalidate (request ("/v1/merchandises/" ++ id) none st w) .merchandises c

end ApiService

/-- The real (non-mocked) mutation methods of the API service. -/
inductive Mutation where
  | updateProd (id : String)
  | deleteProd (id : String)
  | createMemo
  | updateMemo (id : String)
  | deleteMemo (id : String)
  | createMerch
  | updateMerch (id : String)
  | deleteMerch (id : String)
deriving DecidableEq

/-- The resource family a mutation belongs to. -/
def mutationFamily : Mutation → Family
  | .updateProd _ => .products
  | .deleteProd _ => .products
  | .createMemo => .memorabilia
  | .updateMemo _ => .memorabilia
  | .deleteMemo _ => .memorabilia
  | .createMerch => .merchandises
  | .updateMerch _ => .merchandises
  | .deleteMerch _ => .merchandises

/-- Dispatch a mutation to the corresponding API-service method. -/
def runMutation : Mutation → AuthState → Cache → World → MutResult
  | .updateProd id, st, c, w => ApiService.updateProduct id st c w
  | .deleteProd id, st, c, w => ApiService.deleteProduct id st c w
  | .createMemo, st, c, w => ApiService.createMemorabilia st c w
  | .updateMemo id, st, c, w => ApiService.updateMemorabilia id st c w
  | .deleteMemo id, st, c, w => ApiService.deleteMemorabilia id st c w
  | .createMerch, st, c, w => ApiService.createMerchandise st c w
  | .updateMerch id, st, c, w => ApiService.updateMerchandise id st c w
  | .deleteMerch id, st, c, w => ApiService.deleteMerchandise id st c w

/-- The credential-store operations a caller can invoke, together with
the network answer each would receive. -/
inductive AuthOp where
  | loginOp (w : NetResult)
  | refreshOp (w : NetResult)
  | logoutOp
deriving DecidableEq

/-- State transition of one credential-store operation. -/
def applyAuthOp : AuthOp → AuthState → AuthState
  | .loginOp w, st => (AuthService.login st w).2
  | .refreshOp w, st => (AuthService.refreshAccessToken st w).2
  | .logoutOp, st => AuthService.logout st

/-- Run a sequence of credential-store operations. -/
def runAuthOps (ops : List AuthOp) (st : AuthState) : AuthState :=
  ops.foldl (fun s o => applyAuthOp o s) st

/-- The both-or-neither token invariant: the access token is present iff
the refresh token is present. -/
abbrev bothOrNeither (st : AuthState) : Prop :=
  st.accessToken.isSome = st.refreshToken.isSome

/-! ### Helper lemmas -/

/-- A prefix of a list is a prefix of any extension of it. -/
theorem hasPre_append (pat l t : List Char) (h : hasPre pat l = true) :
    hasPre pat (l ++ t) = true := by
  induction pat generalizing l with
  | nil => simp [hasPre]
  | cons p ps ih =>
    cases l with
    | nil => simp [hasPre] at h
    | cons c cs =>
      simp only [hasPre, Bool.and_eq_true, List.cons_append] at h ⊢
      exact ⟨h.1, ih cs h.2⟩

/-- The empty pattern occurs in every list. -/
theorem hasSub_nil_pat (t : List Char) : hasSub [] t = true := by
  cases t <;> simp [hasSub, hasPre]

/-- An occurring pattern still occurs after appending on the right. -/
theorem hasSub_append (pat l t : List Char) (h : hasSub pat l = true) :
    hasSub pat (l ++ t) = true := by
  induction l with
  | nil =>
    have hp : pat = [] := by
      cases pat with
      | nil => rfl
      | cons p ps => simp [hasSub, hasPre] at h
    subst hp
    exact hasSub_nil_pat t
  | cons c cs ih =>
    simp only [hasSub, Bool.or_eq_true] at h
    rcases h with h | h
    · simp only [List.cons_append, hasSub, Bool.or_eq_true]
      exact Or.inl (hasPre_append pat (c :: cs) t h)
    · simp only [List.cons_append, hasSub, Bool.or_eq_true]
      exact Or.inr (ih h)

/-- `strIncludes` is stable under appending a suffix to the searched string. -/
theorem strIncludes_append (a b pat : String) (h : strIncludes a pat = true) :
    strIncludes (a ++ b) pat = true := by
  unfold strIncludes at h ⊢
  have hd : (a ++ b).toList = a.toList ++ b.toList := by
    simp [String.toList, String.data_append]
  rw [hd]
  exact hasSub_append _ _ _ h

/-- A successful refresh saved the returned token pair. -/
theorem refreshAccessToken_ok (st : AuthState) (w : NetResult) (t : TokenResponse)
    (h : (AuthService.refreshAccessToken st w).1 = .ok t) :
    (AuthService.refreshAccessToken st w).2 = AuthService.saveTokensToStorage t st := by
  unfold AuthService.refreshAccessToken at h ⊢
  cases htr : truthy st.refreshToken <;> cases w <;> simp_all

/-- The request wrapper never alters the trace of the try-block. -/
theorem request_trace (endpoint : String) (ca : Option String) (st : AuthState)
    (w : World) :
    (ApiService.request endpoint ca st w).trace = (ApiService.requestCore ca st w).trace := by
  unfold ApiService.request
  rcases hr : ApiService.requestCore ca st w with ⟨res, st1, tr⟩
  cases res with
  | ok v => rfl
  | error m =>
    simp only
    split <;> rfl

/-- The request wrapper never alters the credential-store state either. -/
theorem request_state (endpoint : String) (ca : Option String) (st : AuthState)
    (w : World) :
    (ApiService.request endpoint ca st w).state = (ApiService.requestCore ca st w).state := by
  unfold ApiService.request
  rcases hr : ApiService.requestCore ca st w with ⟨res, st1, tr⟩
  cases res with
  | ok v => rfl
  | error m =>
    simp only
    split <;> rfl

/-- An entry surviving a family-wide invalidation is not of that family. -/
theorem invalidateFamily_no_family (f : Family) (c : Cache) (k : String) (e : CacheEntry)
    (h : invalidateFamily f c k = some e) : e.family ≠ f := by
  unfold invalidateFamily at h
  cases hc : c k with
  | none => rw [hc] at h; simp at h
  | some e2 =>
    rw [hc] at h
    by_cases hf : e2.family = f
    · simp [hf] at h
    · simp [hf] at h
      subst h
      exact hf

/-- Family-wide invalidation evicts every key holding an entry of the family. -/
theorem invalidateFamily_clears (f : Family) (c : Cache) (k : String) (e : CacheEntry)
    (hc : c k = some e) (hf : e.family = f) : invalidateFamily f c k = none := by
  unfold invalidateFamily
  rw [hc]
  simp [hf]

/-- A read for a key with no cache entry goes to the network. -/
theorem cacheRead_miss (key : String) (now : Nat) (f : Family) (ttl : Nat) (fv : ReqValue)
    (c : Cache) (h : c key = none) :
    (cacheRead key now f ttl fv c).networkCalled = true := by
  unfold cacheRead
  rw [h]

/-- A mutation that returned successfully ran its family invalidation hook. -/
theorem awaitThenInvalidate_ok_cache (r : ReqResult) (f : Family) (c : Cache) (v : ReqValue)
    (h : (ApiService.awaitThenInvalidate r f c).res = .ok v) :
    (ApiService.awaitThenInvalidate r f c).cache = invalidateFamily f c := by
  unfold ApiService.awaitThenInvalidate at h ⊢
  cases hr : r.res with
  | ok v2 => rfl
  | error m => rw [hr] at h; simp at h

/-- After a successful mutation no entry of the family survives, and any
key that previously held an entry of the family now misses. -/
theorem mutOkProps (r : ReqResult) (f : Family) (c : Cache) (v : ReqValue)
    (h : (ApiService.awaitThenInvalidate r f c).res = .ok v) :
    (∀ k e, (ApiService.awaitThenInvalidate r f c).cache k = some e → e.family ≠ f)
    ∧ (∀ k e, c k = some e → e.family = f → ∀ now ttl fv,
        (cacheRead k now f ttl fv
          ((ApiService.awaitThenInvalidate r f c).cache)).networkCalled = true) := by
  have hc := awaitThenInvalidate_ok_cache r f c v h
  constructor
  · intro k e hk
    rw [hc] at hk
    exact invalidateFamily_no_family f c k e hk
  · intro k e hk hf now ttl fv
    rw [hc]
    exact cacheRead_miss _ _ _ _ _ _ (invalidateFamily_clears f c k e hk hf)

/-- Every single credential-store operation preserves both-or-neither. -/
theorem applyAuthOp_preserves (op : AuthOp) (st : AuthState) (h : bothOrNeither st) :
    bothOrNeither (applyAuthOp op st) := by
  cases op with
  | loginOp w =>
    cases w with
    | netErr m => exact h
    | httpErr d => exact h
    | ok t => rfl
  | refreshOp w =>
    show bothOrNeither (AuthService.refreshAccessToken st w).2
    unfold AuthService.refreshAccessToken
    cases htr : truthy st.refreshToken
    · exact h
    · cases w with
      | netErr m => rfl
      | httpErr d => rfl
      | ok t => rfl
  | logoutOp => rfl

/-- Every sequence of credential-store operations preserves both-or-neither. -/
theorem runAuthOps_preserves (ops : List AuthOp) (st : AuthState) (h : bothOrNeither st) :
    bothOrNeither (runAuthOps ops st) := by
  induction ops generalizing st with
  | nil => exact h
  | cons op rest ih => exact ih (applyAuthOp op st) (applyAuthOp_preserves op st h)

/-- A try-block failure surfaces as the degraded list fallback exactly on
family endpoints, and as the error itself elsewhere. -/
theorem request_res_of_error (endpoint : String) (ca : Option String) (st : AuthState)
    (w : World) (m : String) (h : (ApiService.requestCore ca st w).res = .error m) :
    (ApiService.request endpoint ca st w).res =
      if ApiService.isFamilyEndpoint endpoint then
        Except.ok (ReqValue.fallbackList [] 0 0 m)
      else Except.error m := by
  unfold ApiService.request
  rcases hr : ApiService.requestCore ca st w with ⟨res, st1, tr⟩
  rw [hr] at h
  change res = Except.error m at h
  subst h
  cases hf : ApiService.isFamilyEndpoint endpoint <;> simp [hf]

/-- On a first 401 while authenticated, the try-block is exactly the
refresh-then-retry-or-logout stage. -/
theorem requestCore_401 (ca : Option String) (st : AuthState) (w : World) (b : RespBody)
    (h1 : w.first = .resp 401 b) (h2 : AuthService.isAuthenticated st = true) :
    ApiService.requestCore ca st w =
      match AuthService.refreshAccessToken st w.refreshResult with
      | (.ok _, st1) =>
        match w.second with
        | .netErr m =>
          ⟨.error m, st1, ⟨[ApiService.mergedAuth st ca, ApiService.mergedAuth st1 ca], 1, []⟩⟩
        | .resp s2 b2 =>
          ⟨ApiService.handleResponse s2 b2, st1,
            ⟨[ApiService.mergedAuth st ca, ApiService.mergedAuth st1 ca], 1, []⟩⟩
      | (.error _, st1) =>
        ⟨.error "Session expired. Please login again.", AuthService.logout st1,
          ⟨[ApiService.mergedAuth st ca], 1, []⟩⟩ := by
  unfold ApiService.requestCore
  rw [h1]
  split
  · rename_i m heq
    exact absurd heq (by simp)
  · rename_i s2 b2 heq
    injection heq with hs hb
    subst hs
    subst hb
    split
    · rfl
    · rename_i hc
      exact absurd (show ((401 == 401) && AuthService.isAuthenticated st) = true by
        rw [h2]; rfl) hc

/-- When the first response is not a handled 401, the try-block is just
response handling of the first response. -/
theorem requestCore_no401 (ca : Option String) (st : AuthState) (w : World)
    (status : Nat) (b : RespBody) (hw : w.first = .resp status b)
    (hc : ((status == 401) && AuthService.isAuthenticated st) = false) :
    ApiService.requestCore ca st w =
      ⟨ApiService.handleResponse status b, st, ⟨[ApiService.mergedAuth st ca], 0, []⟩⟩ := by
  unfold ApiService.requestCore
  rw [hw]
  split
  · rename_i m heq
    exact absurd heq (by simp)
  · rename_i s2 b2 heq
    injection heq with hs hb
    subst hs
    subst hb
    split
    · rename_i hcond
      rw [hc] at hcond
      simp at hcond
    · rfl

/-- A try-block success passes through the request wrapper unchanged. -/
theorem request_res_of_ok (endpoint : String) (ca : Option String) (st : AuthState)
    (w : World) (v : ReqValue) (h : (ApiService.requestCore ca st w).res = .ok v) :
    (ApiService.request endpoint ca st w).res = .ok v := by
  unfold ApiService.request
  rcases hr : ApiService.requestCore ca st w with ⟨res, st1, tr⟩
  rw [hr] at h
  change res = Except.ok v at h
  subst h
  rfl

/-! ### Claims -/

/-- C1 (corrected): the spec claims the degraded-list fallback applies
only to listing-resource requests while detail and write requests
propagate failures; in the code the catch clause tests whether the
endpoint path merely contains one of the substrings `products`,
`memorabilia`, `merchandise`, so detail and write requests on those
families also receive the successful empty-list fallback.  Here
`getProduct` (a detail request by id or slug) hits a network error and
still resolves successfully with the fallback object — not an error. -/
theorem c1_counterexample :
    (ApiService.getProduct "p1" ⟨none, none, none, none⟩
        ⟨.netErr "boom", .httpErr none, .netErr "x"⟩).res
      = .ok (.fallbackList [] 0 0 "boom") := by decide

/-- C1 (amended): any failure in dispatch, unauthorized handling, or
response handling is converted into the successful empty-list response
carrying the error message exactly when the endpoint path contains one
of the three family substrings — which is the case for every products,
memorabilia and merchandises endpoint, detail and write ones included —
and propagates as an error on every other endpoint (e.g. uploads). -/
theorem c1_theorem (endpoint : String) (ca : Option String) (st : AuthState)
    (w : World) (m : String) (h : (ApiService.requestCore ca st w).res = .error m) :
    ((ApiService.request endpoint ca st w).res =
      if ApiService.isFamilyEndpoint endpoint then
        Except.ok (ReqValue.fallbackList [] 0 0 m)
      else Except.error m)
    ∧ (∀ s, ApiService.isFamilyEndpoint ("/v1/products/" ++ s) = true)
    ∧ (∀ s, ApiService.isFamilyEndpoint ("/v1/memorabilia/" ++ s) = true)
    ∧ (∀ s, ApiService.isFamilyEndpoint ("/v1/merchandises/" ++ s) = true)
    ∧ ApiService.isFamilyEndpoint "/v1/uploads/" = false := by
  refine ⟨request_res_of_error endpoint ca st w m h, ?_, ?_, ?_, by decide⟩
  · intro s
    have hs : strIncludes ("/v1/products/" ++ s) "products" = true :=
      strIncludes_append "/v1/products/" s "products" (by decide)
    simp [ApiService.isFamilyEndpoint, hs]
  · intro s
    have hs : strIncludes ("/v1/memorabilia/" ++ s) "memorabilia" = true :=
      strIncludes_append "/v1/memorabilia/" s "memorabilia" (by decide)
    simp [ApiService.isFamilyEndpoint, hs]
  · intro s
    have hs : strIncludes ("/v1/merchandises/" ++ s) "merchandise" = true :=
      strIncludes_append "/v1/merchandises/" s "merchandise" (by decide)
    simp [ApiService.isFamilyEndpoint, hs]

/-- C1 witness: the amended theorem applied to a failing request on the
product-detail endpoint of the counterexample. -/
theorem c1_witness :
    (ApiService.request "/v1/products/p1" none ⟨none, none, none, none⟩
        ⟨.netErr "boom", .httpErr none, .netErr "x"⟩).res =
      if ApiService.isFamilyEndpoint "/v1/products/p1" then
        Except.ok (ReqValue.fallbackList [] 0 0 "boom")
      else Except.error "boom" :=
  ( c1_theorem "/v1/products/p1" none ⟨none, none, none, none⟩
    ⟨.netErr "boom", .httpErr none, .netErr "x"⟩ "boom" (by decide)).1

/-- C2 (corrected): the at-most-once refresh and at-most-once retry parts
hold, and a failed refresh does clear the stored tokens; but the claim
that the call then "fails with a session-expired error" is false for
endpoints of the three resource families, where the catch clause turns
the session-expired error into a successful empty-list fallback.  Here a
products listing request whose first response is 401 and whose refresh
fails resolves successfully with the fallback carrying the message. -/
theorem c2_counterexample :
    (ApiService.request "/v1/products/?limit=1" none
        ⟨some "a", some "r", some "a", some "r"⟩
        ⟨.resp 401 (.json none "b"), .httpErr none, .resp 200 (.json none "u")⟩).res
      = .ok (.fallbackList [] 0 0 "Session expired. Please login again.") := by decide

/-- C2 (amended): for every request whose first response is 401 while a
token is held, exactly one refresh is invoked and at most one retry is
dispatched; if the refresh fails, the stored tokens are cleared (forced
logout), no retry happens, and the pipeline raises the session-expired
error — which propagates to the caller on non-family endpoints and is
converted into the successful empty-list fallback on family endpoints. -/
theorem c2_theorem (endpoint : String) (ca : Option String) (st : AuthState) (w : World)
    (b : RespBody) (h1 : w.first = .resp 401 b)
    (h2 : AuthService.isAuthenticated st = true) :
    (ApiService.requestCore ca st w).trace.refreshCalls = 1
    ∧ (ApiService.requestCore ca st w).trace.fetches.length ≤ 2
    ∧ (∀ e, (AuthService.refreshAccessToken st w.refreshResult).1 = .error e →
        (ApiService.requestCore ca st w).state = ⟨none, none, none, none⟩
        ∧ (ApiService.requestCore ca st w).res
            = .error "Session expired. Please login again."
        ∧ (ApiService.requestCore ca st w).trace.fetches.length = 1
        ∧ (ApiService.request endpoint ca st w).res =
            (if ApiService.isFamilyEndpoint endpoint then
              Except.ok (ReqValue.fallbackList [] 0 0 "Session expired. Please login again.")
            else Except.error "Session expired. Please login again.")) := by
  have hchar := requestCore_401 ca st w b h1 h2
  rcases hre : AuthService.refreshAccessToken st w.refreshResult with ⟨rres, st1⟩
  rw [hre] at hchar
  cases rres with
  | ok t =>
    cases hs : w.second with
    | netErr m =>
      rw [hs] at hchar
      refine ⟨by rw [hchar], by rw [hchar]; exact Nat.le_refl 2, ?_⟩
      intro e he
      simp at he
    | resp s2 b2 =>
      rw [hs] at hchar
      refine ⟨by rw [hchar], by rw [hchar]; exact Nat.le_refl 2, ?_⟩
      intro e he
      simp at he
  | error msg =>
    refine ⟨by rw [hchar], by rw [hchar]; exact Nat.le_succ 1, ?_⟩
    intro e he
    refine ⟨by rw [hchar]; rfl, by rw [hchar],
      by rw [hchar]; rfl, ?_⟩
    exact request_res_of_error endpoint ca st w _ (by rw [hchar])

/-- C3 (corrected): update and delete on products, and create, update and
delete on memorabilia and merchandises, do invalidate their family after
a successful mutation; but `createProduct` — also a mutation of the
products family — is a mocked demo path whose invalidation call is
commented out, so a successful product creation leaves every cached
product-family entry in place and a subsequent read for such a key still
hits the cache.  The invalidation hooks live in the cache module, which
is absent from the snapshot and modelled from the spec. -/
theorem c3_counterexample :
    (ApiService.createProduct { title := "Movie Car" } 7 ⟨none, none, none, none⟩
        (fun k => if k == "products:p0" then
          some ⟨.products, .json none "v0", 0, 5000⟩ else none)).cache "products:p0"
      = some ⟨.products, .json none "v0", 0, 5000⟩
    ∧ (cacheRead "products:p0" 4000 .products 5000 (.json none "fresh")
        ((ApiService.createProduct { title := "Movie Car" } 7 ⟨none, none, none, none⟩
          (fun k => if k == "products:p0" then
            some ⟨.products, .json none "v0", 0, 5000⟩ else none)).cache)).networkCalled
      = false :=
  ⟨by decide, by decide⟩

/-- C3 (amended): for every successful mutation other than product
creation — update/delete of a product, create/update/delete of
memorabilia or merchandise — the pipeline synchronously invalidates all
cache entries of the mutated family before returning: no entry of the
family survives, and a subsequent read for any key that previously held
an entry of that family misses the cache and re-fetches. -/
theorem c3_theorem (m : Mutation) (st : AuthState) (c : Cache) (w : World) (v : ReqValue)
    (h : (runMutation m st c w).res = .ok v) :
    (∀ k e, (runMutation m st c w).cache k = some e → e.family ≠ mutationFamily m)
    ∧ (∀ k e, c k = some e → e.family = mutationFamily m → ∀ now ttl fv,
        (cacheRead k now (mutationFamily m) ttl fv
          ((runMutation m st c w).cache)).networkCalled = true) := by
  cases m <;> exact mutOkProps _ _ _ _ h

/-- C3 witness: after a successful product update, the key that held a
fresh product entry misses the cache and re-fetches. -/
theorem c3_witness :
    (cacheRead "k1" 5 .products 10 .empty
      ((runMutation (.updateProd "p1") ⟨none, none, none, none⟩
        (fun k => if k == "k1" then some ⟨.products, .json none "v", 0, 10⟩ else none)
        ⟨.resp 200 (.json none "ok"), .httpErr none, .netErr ""⟩).cache)).networkCalled
      = true :=
  (c3_theorem (.updateProd "p1") ⟨none, none, none, none⟩
    (fun k => if k == "k1" then some ⟨.products, .json none "v", 0, 10⟩ else none)
    ⟨.resp 200 (.json none "ok"), .httpErr none, .netErr ""⟩ (.json none "ok")
    (by decide)).2 "k1" ⟨.products, .json none "v", 0, 10⟩ (by decide) rfl 5 10 .empty

/-- The authorization header derived from a freshly saved token pair. -/
theorem getAuthHeaders_save (t : TokenResponse) (st : AuthState)
    (h : ¬ t.access_token = "") :
    (AuthService.getAuthHeaders (AuthService.saveTokensToStorage t st)).authorization
      = some ("Bearer " ++ t.access_token) := by
  unfold AuthService.getAuthHeaders AuthService.saveTokensToStorage truthy
  simp [h]

/-- C4 (corrected): after a 401-triggered successful refresh, a retried
request whose caller supplied no Authorization header is re-dispatched
with headers derived from the refreshed token; but `uploadFile` captures
`authService.getAuthHeaders()['Authorization'] || ''` into its own
headers before dispatch, and the header merge lets caller headers
override the store-derived ones, so the retried upload is issued with
the Authorization value of the token that produced the 401, not the
refreshed one.  Here the store held token `old`, the refresh produced
`new`, and the retried upload still sent `Bearer old` — while the same
scenario without a caller header sends `Bearer new` on the retry. -/
theorem c4_counterexample :
    (ApiService.uploadFile ⟨some "old", some "r", some "old", some "r"⟩
        ⟨.resp 401 (.json none "e"), .ok ⟨"new", "r2", "bearer"⟩,
          .resp 200 (.json none "up")⟩).trace.fetches
      = [some "Bearer old", some "Bearer old"]
    ∧ (ApiService.request "/v1/uploads/" none ⟨some "old", some "r", some "old", some "r"⟩
        ⟨.resp 401 (.json none "e"), .ok ⟨"new", "r2", "bearer"⟩,
          .resp 200 (.json none "up")⟩).trace.fetches
      = [some "Bearer old", some "Bearer new"] :=
  ⟨by decide, by decide⟩

/-- C4 (amended): for every request re-dispatched after a 401-triggered
successful refresh, the retry carries the bearer header of the refreshed
token when the caller supplied no Authorization header; a caller-supplied
Authorization header (as in `uploadFile`, which captures the pre-dispatch
value) takes precedence in the merge, so such retries are issued with the
originally captured value on both dispatches. -/
theorem c4_theorem (st : AuthState) (w : World) (b : RespBody) (t : TokenResponse)
    (h1 : w.first = .resp 401 b) (h2 : AuthService.isAuthenticated st = true)
    (h3 : (AuthService.refreshAccessToken st w.refreshResult).1 = .ok t)
    (h4 : ¬ t.access_token = "") :
    (ApiService.requestCore none st w).trace.fetches
        = [(AuthService.getAuthHeaders st).authorization,
           some ("Bearer " ++ t.access_token)]
    ∧ (ApiService.uploadFile st w).trace.fetches
        = [some (jsOr (AuthService.getAuthHeaders st).authorization ""),
           some (jsOr (AuthService.getAuthHeaders st).authorization "")] := by
  have hst1 := refreshAccessToken_ok st w.refreshResult t h3
  have hchar1 := requestCore_401 none st w b h1 h2
  have hchar2 := requestCore_401
    (some (jsOr (AuthService.getAuthHeaders st).authorization "")) st w b h1 h2
  rcases hre : AuthService.refreshAccessToken st w.refreshResult with ⟨rres, st1⟩
  rw [hre] at hchar1 hchar2 hst1 h3
  change rres = Except.ok t at h3
  subst h3
  change st1 = AuthService.saveTokensToStorage t st at hst1
  subst hst1
  cases hs : w.second <;>
    (rw [hs] at hchar1 hchar2
     refine ⟨?_, ?_⟩
     · rw [hchar1]
       simp [ApiService.mergedAuth, getAuthHeaders_save t st h4]
     · show (ApiService.request "/v1/uploads/"
         (some (jsOr (AuthService.getAuthHeaders st).authorization "")) st w).trace.fetches = _
       rw [request_trace, hchar2]
       rfl)

/-- C4 witness: the amended theorem applied to the counterexample
scenario; the upload retry repeats the captured pre-refresh header. -/
theorem c4_witness :
    (ApiService.uploadFile ⟨some "old", some "r", some "old", some "r"⟩
        ⟨.resp 401 (.json none "e"), .ok ⟨"new", "r2", "bearer"⟩,
          .resp 200 (.json none "up")⟩).trace.fetches
      = [some (jsOr (AuthService.getAuthHeaders
            ⟨some "old", some "r", some "old", some "r"⟩).authorization ""),
         some (jsOr (AuthService.getAuthHeaders
            ⟨some "old", some "r", some "old", some "r"⟩).authorization "")] :=
  (c4_theorem ⟨some "old", some "r", some "old", some "r"⟩
    ⟨.resp 401 (.json none "e"), .ok ⟨"new", "r2", "bearer"⟩,
      .resp 200 (.json none "up")⟩ (.json none "e") ⟨"new", "r2", "bearer"⟩
    rfl (by decide) (by decide) (by decide)).2

/-- C2 witness: the amended theorem applied to the counterexample
scenario, showing exactly one refresh call. -/
theorem c2_witness :
    (ApiService.requestCore none ⟨some "a", some "r", some "a", some "r"⟩
        ⟨.resp 401 (.json none "b"), .httpErr none,
          .resp 200 (.json none "u")⟩).trace.refreshCalls = 1 :=
  ( c2_theorem "/v1/products/?limit=1" none ⟨some "a", some "r", some "a", some "r"⟩
    ⟨.resp 401 (.json none "b"), .httpErr none, .resp 200 (.json none "u")⟩
    (.json none "b") rfl (by decide)).1

/-- C5 (corrected): the claim quantifies over every store state and every
failure cause, including the no-refresh-token failure.  In the partial
state holding an access token but no refresh token — reachable by
cold-start hydration from storage containing only `access_token` — the
no-token guard fails before the try block, the state is untouched, and
`isAuthenticated()` stays true with an Authorization header still
emitted. -/
theorem c5_counterexample :
    (AuthService.refreshAccessToken (AuthService.loadTokensFromStorage (some "a") none)
        (.ok ⟨"x", "y", "bearer"⟩)).1 = .error "No refresh token available"
    ∧ AuthService.isAuthenticated
        (AuthService.refreshAccessToken (AuthService.loadTokensFromStorage (some "a") none)
          (.ok ⟨"x", "y", "bearer"⟩)).2 = true
    ∧ (AuthService.getAuthHeaders
        (AuthService.refreshAccessToken (AuthService.loadTokensFromStorage (some "a") none)
          (.ok ⟨"x", "y", "bearer"⟩)).2).authorization = some "Bearer a" :=
  ⟨by decide, by decide, by decide⟩

/-- C5 (amended): for every store state whose held tokens are consistent
(access held iff refresh held, in the truthiness sense), any `refresh()`
failure leaves `isAuthenticated()` false and `authHeaders()` without an
Authorization entry: a failing network refresh clears the tokens, and the
no-token failure can only happen when no access token was held either. -/
theorem c5_theorem (st : AuthState) (w : NetResult) (e : String)
    (hinv : truthy st.accessToken = truthy st.refreshToken)
    (h : (AuthService.refreshAccessToken st w).1 = .error e) :
    AuthService.isAuthenticated (AuthService.refreshAccessToken st w).2 = false
    ∧ (AuthService.getAuthHeaders (AuthService.refreshAccessToken st w).2).authorization
        = none := by
  unfold AuthService.refreshAccessToken at h ⊢
  cases htr : truthy st.refreshToken
  · rw [htr] at hinv
    refine ⟨?_, ?_⟩
    · show AuthService.isAuthenticated st = false
      unfold AuthService.isAuthenticated
      exact hinv
    · show (AuthService.getAuthHeaders st).authorization = none
      unfold AuthService.getAuthHeaders
      rw [hinv]
      rfl
  · cases w with
    | ok t => simp [htr] at h
    | httpErr d => exact ⟨rfl, rfl⟩
    | netErr m => exact ⟨rfl, rfl⟩

/-- C5 witness: a failing network refresh from a consistent state leaves
the store unauthenticated. -/
theorem c5_witness :
    AuthService.isAuthenticated
      (AuthService.refreshAccessToken ⟨some "a", some "r", some "a", some "r"⟩
        (.httpErr none)).2 = false :=
  (c5_theorem ⟨some "a", some "r", some "a", some "r"⟩ (.httpErr none)
    "Token refresh failed" rfl (by decide)).1

/-- C6 (corrected): the constructor loads the two storage slots
independently, so storage containing only `access_token` hydrates into a
partial state holding exactly one of the two tokens, violating the
claimed both-or-neither invariant right after construction. -/
theorem c6_counterexample :
    ¬ bothOrNeither (AuthService.loadTokensFromStorage (some "a") none) := by decide

/-- C6 (amended): whenever the storage content itself holds both keys or
neither, the state hydrated from it satisfies both-or-neither, and every
sequence of login, refresh, and logout operations preserves it; only
hydration from storage holding exactly one key produces a partial
state. -/
theorem c6_theorem (a r : Option String) (ops : List AuthOp)
    (h : a.isSome = r.isSome) :
    bothOrNeither (runAuthOps ops (AuthService.loadTokensFromStorage a r)) :=
  runAuthOps_preserves ops (AuthService.loadTokensFromStorage a r) h

/-- C6 witness: a failed refresh, a successful login and a logout starting
from a hydrated consistent state keep both-or-neither. -/
theorem c6_witness :
    bothOrNeither (runAuthOps
      [.refreshOp (.httpErr none), .loginOp (.ok ⟨"x", "y", "b"⟩), .logoutOp]
      (AuthService.loadTokensFromStorage (some "a") (some "r"))) :=
  c6_theorem (some "a") (some "r")
    [.refreshOp (.httpErr none), .loginOp (.ok ⟨"x", "y", "b"⟩), .logoutOp] rfl

/-- C7 (corrected): the claimed error propagation for non-listing
requests fails on detail and write endpoints of the three resource
families: a 500 on the product-detail endpoint is converted by the catch
clause into the successful empty-list fallback carrying the detail
message instead of an error. -/
theorem c7_counterexample :
    (ApiService.request "/v1/products/p1" none ⟨none, none, none, none⟩
        ⟨.resp 500 (.json (some "boom") ""), .httpErr none, .netErr ""⟩).res
      = .ok (.fallbackList [] 0 0 "boom") := by decide

/-- C7 (amended): for every request to an endpoint outside the three
resource families (e.g. uploads): a non-2xx first response other than a
handled 401 fails with an error whose message is the JSON body detail
field when present (else a generic message carrying the status code); a
204 yields the empty success value; and a 2xx JSON body is returned
parsed.  On family endpoints the same response handling applies but the
error is then converted into the degraded list fallback. -/
theorem c7_theorem (endpoint : String) (ca : Option String) (st : AuthState)
    (status : Nat) (b : RespBody) (w : World)
    (hfam : ApiService.isFamilyEndpoint endpoint = false)
    (hw : w.first = .resp status b) :
    (isOkStatus status = false → ¬(status = 401 ∧ AuthService.isAuthenticated st = true) →
        (ApiService.request endpoint ca st w).res
          = .error (jsOr (bodyDetail b) ("HTTP error! status: " ++ toString status)))
    ∧ (status = 204 → (ApiService.request endpoint ca st w).res = .ok .empty)
    ∧ (∀ d tag, isOkStatus status = true → status ≠ 204 → b = .json d tag →
        (ApiService.request endpoint ca st w).res = .ok (.json d tag)) := by
  refine ⟨?_, ?_, ?_⟩
  · intro hNotOk hNot401
    have hc : ((status == 401) && AuthService.isAuthenticated st) = false := by
      cases h401 : (status == 401)
      · rfl
      · have hst : status = 401 := by simpa using h401
        cases hAuth : AuthService.isAuthenticated st
        · rfl
        · exact absurd ⟨hst, hAuth⟩ hNot401
    have hcore := requestCore_no401 ca st w status b hw hc
    have hhr : ApiService.handleResponse status b
        = .error (jsOr (bodyDetail b) ("HTTP error! status: " ++ toString status)) := by
      unfold ApiService.handleResponse
      rw [if_pos hNotOk]
    have hres : (ApiService.requestCore ca st w).res
        = .error (jsOr (bodyDetail b) ("HTTP error! status: " ++ toString status)) := by
      rw [hcore]
      exact hhr
    have hfin := request_res_of_error endpoint ca st w _ hres
    rw [hfam] at hfin
    simpa using hfin
  · intro h204
    subst h204
    have hcore := requestCore_no401 ca st w 204 b hw rfl
    exact request_res_of_ok endpoint ca st w _ (by rw [hcore]; rfl)
  · intro d tag hOk hNe hb
    subst hb
    have h401 : (status == 401) = false := by
      cases hq : (status == 401)
      · rfl
      · have hst : status = 401 := by simpa using hq
        subst hst
        exact absurd hOk (by decide)
    have hc : ((status == 401) && AuthService.isAuthenticated st) = false := by
      rw [h401]
      rfl
    have hcore := requestCore_no401 ca st w status (.json d tag) hw hc
    have h204 : (status == 204) = false := by
      cases hq : (status == 204)
      · rfl
      · exact absurd (by simpa using hq : status = 204) hNe
    have hhr : ApiService.handleResponse status (.json d tag) = .ok (.json d tag) := by
      unfold ApiService.handleResponse
      rw [hOk, h204]
      simp
    exact request_res_of_ok endpoint ca st w _ (by rw [hcore]; exact hhr)

/-- C7 witness: a 500 with a JSON detail body on the uploads endpoint
fails with the detail message. -/
theorem c7_witness :
    (ApiService.request "/v1/uploads/" none ⟨none, none, none, none⟩
        ⟨.resp 500 (.json (some "bad") ""), .httpErr none, .netErr ""⟩).res
      = .error (jsOr (bodyDetail (.json (some "bad") ""))
          ("HTTP error! status: " ++ toString 500)) :=
  ( c7_theorem "/v1/uploads/" none ⟨none, none, none, none⟩ 500 (.json (some "bad") "")
    ⟨.resp 500 (.json (some "bad") ""), .httpErr none, .netErr ""⟩
    (by decide) rfl).1 (by decide) (by decide)

/-- C8 (confirmed): `createProduct` is the mocked demo path — it issues no
fetch and no refresh, resolves after the simulated 500 ms delay, leaves
the credential store and the cache untouched, and returns a total (never
failing) mock product whose title is the input title, whose id is
`mock-` followed by the timestamp, and whose slug is the supplied slug
when truthy, else the lowercased hyphenated title. -/
theorem c8_theorem (data : ProductCreate) (now : Nat) (st : AuthState) (c : Cache) :
    (ApiService.createProduct data now st c).trace = ⟨[], 0, [500]⟩
    ∧ (ApiService.createProduct data now st c).state = st
    ∧ (ApiService.createProduct data now st c).cache = c
    ∧ (ApiService.createProduct data now st c).product.title = data.title
    ∧ (∃ rest, (ApiService.createProduct data now st c).product.id = "mock-" ++ rest)
    ∧ (ApiService.createProduct data now st c).product.slug
        = jsOr data.slug (defaultSlug data.title) :=
  ⟨rfl, rfl, rfl, rfl, ⟨toString now, rfl⟩, rfl⟩

/-- C9 (confirmed, cache modelled from the spec): a read for a key whose
entry is younger than its TTL is served from the cache without a network
call and without modifying the cache, and the value a fresh read serves
is exactly the value written by the last successful fetch for that key. -/
theorem c9_theorem (key : String) (now : Nat) (f : Family) (ttl : Nat) (fv : ReqValue)
    (c : Cache) (e : CacheEntry) (h1 : c key = some e)
    (h2 : now - e.fetchedAt < e.ttl) :
    cacheRead key now f ttl fv c = ⟨e.value, false, c⟩
    ∧ ∀ v t0 t1 f0, t1 - t0 < ttl →
        cacheRead key t1 f ttl fv (writeCache key f0 ttl v t0 c)
          = ⟨v, false, writeCache key f0 ttl v t0 c⟩ := by
  constructor
  · unfold cacheRead
    rw [h1]
    simp [isFresh, h2]
  · intro v t0 t1 f0 hlt
    unfold cacheRead writeCache
    simp [isFresh, hlt]

/-- C9 witness: a fresh entry (age 40, TTL 100) is served without any
network call. -/
theorem c9_witness :
    cacheRead "k1" 50 .products 100 (.json none "f")
        (fun k => if k == "k1" then some ⟨.products, .json none "v", 10, 100⟩ else none)
      = ⟨ReqValue.json none "v", false,
         fun k => if k == "k1" then some ⟨.products, .json none "v", 10, 100⟩ else none⟩ :=
  ( c9_theorem "k1" 50 .products 100 (.json none "f")
    (fun k => if k == "k1" then some ⟨.products, .json none "v", 10, 100⟩ else none)
    ⟨.products, .json none "v", 10, 100⟩ (by decide) (by decide)).1

/-- C10 (confirmed): the no-refresh-token guard sits before the try block,
so calling `refresh()` without a held refresh token fails with the
no-token error and returns the state — in-memory and persisted fields —
exactly as it was, keeping `isAuthenticated()` at its prior value. -/
theorem c10_theorem (st : AuthState) (w : NetResult)
    (h : truthy st.refreshToken = false) :
    AuthService.refreshAccessToken st w = (.error "No refresh token available", st)
    ∧ AuthService.isAuthenticated (AuthService.refreshAccessToken st w).2
        = AuthService.isAuthenticated st := by
  have hmain : AuthService.refreshAccessToken st w
      = (.error "No refresh token available", st) := by
    unfold AuthService.refreshAccessToken
    rw [h]
    rfl
  exact ⟨hmain, by rw [hmain]⟩

/-- C10 witness: refreshing while holding an access token but no refresh
token fails and leaves the state exactly as before. -/
theorem c10_witness :
    AuthService.refreshAccessToken ⟨some "a", none, some "a", none⟩ (.ok ⟨"x", "y", "b"⟩)
      = (.error "No refresh token available", ⟨some "a", none, some "a", none⟩) :=
  (c10_theorem ⟨some "a", none, some "a", none⟩ (.ok ⟨"x", "y", "b"⟩) rfl).1

end RwDemo
